import Mathlib

/-!
Verification of the blogicum blog application's visibility policy,
pagination contract and request handlers, shallowly embedded from
`src/blogicum/blog/views.py` (with the data model of `blog/models.py`,
absent from `src/`, modelled from the specification's §3 table).

Conventions of the embedding:
* Database rows become Lean structures; the entity store becomes a `DB`
  record of lists of rows.
* `timezone.now()` becomes an explicit `now : Int` timestamp argument.
* A request handler becomes a function from the database, the acting
  user and the request parameters to a `Response` (and, for mutating
  handlers, a new database).
* Django's `request.user` is a `Viewer`: either `anonymous` or an
  authenticated `User`.
* Form validation (`form.is_valid()`) is an abstract boolean input of
  the handler, since `blog/forms.py` is not part of the sources; the
  handlers only branch on its outcome.
-/

/-- Modelled from the spec: User entity (§3) — identity is delegated to the
framework; only the identity itself and the username (used in profile URLs)
matter to the handlers. -/
structure User where
  id : Nat
  username : String
deriving DecidableEq, Repr

/-- Modelled from the spec: Category entity (§3): `title, description,
slug (unique), is_published, created_at`; only the slug and publication
flag are consulted by the handlers. -/
structure Category where
  id : Nat
  slug : String
  is_published : Bool
deriving DecidableEq, Repr

/-- Modelled from the spec: Post entity (§3): `title, text, pub_date
(future-datable), author (User), category (optional FK), location
(optional FK), is_published, created_at, image (optional)`; the fields the
view logic reads are kept, the category FK is stored by id. -/
structure Post where
  id : Nat
  author : User
  pub_date : Int
  is_published : Bool
  category : Option Nat
deriving DecidableEq, Repr

/-- Modelled from the spec: Comment entity (§3): `text, author (User),
post (FK), created_at`. -/
structure Comment where
  id : Nat
  author : User
  post_id : Nat
  text : String
deriving DecidableEq, Repr

/-- The entity store: the relational tables the handlers query. -/
structure DB where
  users : List User
  categories : List Category
  posts : List Post
  comments : List Comment
deriving DecidableEq, Repr

/-- `request.user`: an anonymous visitor or an authenticated user. -/
inductive Viewer where
  | anonymous
  | auth (u : User)
deriving DecidableEq, Repr

/-- The responses the embedded handlers can produce.  `forbidden` is in the
response space (the spec's error taxonomy has a 403 for CSRF failures) but,
as the theorems show, no handler below ever produces it.  `serverError` is
the unhandled exception path: an exception raised inside a handler that no
code catches surfaces as a 500. -/
inductive Response where
  | okPost (p : Post)
  | notFound
  | forbidden
  | serverError
  | redirectDetail (pk : Nat)
  | redirectIndex
  | redirectLogin
  | redirectProfile (username : String)
  | renderTemplate (t : String)
deriving DecidableEq, Repr

/-- Resolve a post's optional category FK against the category table. -/
def categoryOf (db : DB) (p : Post) : Option Category :=
  p.category.bind (fun cid => db.categories.find? (fun c => c.id == cid))

/-- The filter of `PostDetailView.get_object` (views.py:148-150) for an
authenticated request: `Q(is_published=True) | Q(author=self.request.user)`. -/
def isPostVisible (p : Post) (u : User) : Bool :=
  p.is_published || p.author == u

/-- `PostDetailView.get_object` (views.py:147-154).  The detail route has
no login requirement, so `self.request.user` may be an `AnonymousUser`;
`AnonymousUser` is not a model instance, so building the filter
`Q(author=self.request.user)` raises
`TypeError: Field 'id' expected a number but got <AnonymousUser>` inside
the related-lookup preparation, before the query runs — `Except.error`.
For an authenticated user the post table is filtered by `isPostVisible`
and searched by primary key (`get_object_or_404`). -/
def PostDetailView_get_object (db : DB) (v : Viewer) (pk : Nat) :
    Except Unit (Option Post) :=
  match v with
  | Viewer.anonymous => Except.error ()
  | Viewer.auth u =>
      Except.ok ((db.posts.filter (fun p => isPostVisible p u)).find? (fun p => p.id == pk))

/-- The `/posts/{id}/` handler: render the post found by
`PostDetailView.get_object`, surface the `Http404` raised by
`get_object_or_404`, or surface the uncaught `TypeError` of an anonymous
request as a 500. -/
def postDetailHandler (db : DB) (v : Viewer) (pk : Nat) : Response :=
  match PostDetailView_get_object db v pk with
  | Except.error _ => Response.serverError
  | Except.ok (some p) => Response.okPost p
  | Except.ok none => Response.notFound

lemma postDetailHandler_auth (db : DB) (u : User) (pk : Nat) :
    postDetailHandler db (Viewer.auth u) pk
      = (match (db.posts.filter (fun p => isPostVisible p u)).find? (fun p => p.id == pk) with
         | some p => Response.okPost p
         | none => Response.notFound) := by
  cases h : (db.posts.filter (fun p => isPostVisible p u)).find? (fun p => p.id == pk) with
  | none => simp [postDetailHandler, PostDetailView_get_object, h]
  | some q => simp [postDetailHandler, PostDetailView_get_object, h]

lemma find_filter_of_not_mem (l : List Post) (f : Post → Bool) (pk : Nat)
    (hnone : ∀ q ∈ l, q.id ≠ pk) :
    (l.filter f).find? (fun q => q.id == pk) = none := by
  induction l with
  | nil => simp
  | cons a t ih =>
    have ha : a.id ≠ pk := hnone a (List.mem_cons_self a t)
    have ht : ∀ q ∈ t, q.id ≠ pk := fun q hq => hnone q (List.mem_cons_of_mem a hq)
    by_cases hf : f a
    · simp [List.filter_cons, hf, List.find?, ha, ih ht]
    · simp [List.filter_cons, hf, ih ht]

lemma find_filter_of_unique (l : List Post) (f : Post → Bool) (pk : Nat) (p : Post)
    (hp : p ∈ l) (hid : p.id = pk) (hu : ∀ q ∈ l, q.id = pk → q = p) :
    (l.filter f).find? (fun q => q.id == pk) = if f p then some p else none := by
  induction l with
  | nil => simp at hp
  | cons a t ih =>
    by_cases hcase : a.id = pk
    · have hap : a = p := hu a (List.mem_cons_self a t) hcase
      subst hap
      by_cases hf : f a
      · simp [List.filter_cons, hf, List.find?, hcase]
      · rw [List.filter_cons, if_neg hf, if_neg hf]
        by_cases hpt : a ∈ t
        · have step := ih hpt (fun q hq hq' => hu q (List.mem_cons_of_mem a hq) hq')
          rw [step, if_neg hf]
        · refine find_filter_of_not_mem t f pk (fun q hq hq' => ?_)
          exact hpt ((hu q (List.mem_cons_of_mem a hq) hq') ▸ hq)
    · have hap : a ≠ p := fun h => hcase (h ▸ hid)
      have hpt : p ∈ t := by
        rcases List.mem_cons.mp hp with h | h
        · exact absurd h.symm hap
        · exact h
      have step := ih hpt (fun q hq hq' => hu q (List.mem_cons_of_mem a hq) hq')
      by_cases hf : f a
      · simp [List.filter_cons, hf, List.find?, hcase, step]
      · simp [List.filter_cons, hf, step]

/-- C1 as stated is false for anonymous viewers: a PUBLISHED post's detail
request by an anonymous viewer does not return the post (as the claim's
biconditional requires) and does not 404 — building the
`Q(author=request.user)` filter with an `AnonymousUser` raises an
uncaught `TypeError`, a 500. -/
theorem postDetail_anonymous_counterexample :
    (Post.mk 7 (User.mk 1 "alice") 0 true none).is_published = true
    ∧ postDetailHandler
        (DB.mk [User.mk 1 "alice"] [] [Post.mk 7 (User.mk 1 "alice") 0 true none] [])
        Viewer.anonymous 7
      = Response.serverError
    ∧ Response.serverError ≠ Response.okPost (Post.mk 7 (User.mk 1 "alice") 0 true none)
    ∧ Response.serverError ≠ Response.notFound := by decide

/-- C1 amended: for every post `p` and AUTHENTICATED viewer `u`,
`/posts/{id}/` returns the post iff `p.is_published` is true or `u` is
`p`'s author; when neither holds the handler answers not-found, never
forbidden.  An anonymous request to the route instead raises an uncaught
`TypeError` (500) while building the author filter, whatever the post.
(The uniqueness hypothesis `hu` is the primary-key constraint of the post
table.) -/
theorem postDetail_visibility (db : DB) (u : User) (pk : Nat) (p : Post)
    (hp : p ∈ db.posts) (hid : p.id = pk)
    (hu : ∀ q ∈ db.posts, q.id = pk → q = p) :
    (postDetailHandler db (Viewer.auth u) pk = Response.okPost p ↔
      (p.is_published = true ∨ p.author = u))
    ∧ (¬ (p.is_published = true ∨ p.author = u) →
        postDetailHandler db (Viewer.auth u) pk = Response.notFound)
    ∧ postDetailHandler db (Viewer.auth u) pk ≠ Response.forbidden
    ∧ postDetailHandler db Viewer.anonymous pk = Response.serverError := by
  have hfind := find_filter_of_unique db.posts (fun q => isPostVisible q u) pk p hp hid hu
  have hvis : isPostVisible p u = true ↔ (p.is_published = true ∨ p.author = u) := by
    simp [isPostVisible]
  rw [postDetailHandler_auth, hfind]
  by_cases hv : isPostVisible p u = true
  · rw [if_pos hv]
    refine ⟨⟨fun _ => hvis.mp hv, fun _ => rfl⟩,
      fun hcontra => absurd (hvis.mp hv) hcontra, by simp, rfl⟩
  · rw [if_neg hv]
    refine ⟨⟨fun h => by simp at h, fun h => absurd (hvis.mpr h) hv⟩,
      fun _ => rfl, by simp, rfl⟩

/-- Witness for `postDetail_visibility`: a concrete unpublished post whose
author retrieves it while a different authenticated user gets not-found. -/
theorem postDetail_visibility_witness :
    (postDetailHandler
        (DB.mk [User.mk 1 "alice", User.mk 2 "bob"] [] [Post.mk 7 (User.mk 1 "alice") 0 false none] [])
        (Viewer.auth (User.mk 1 "alice")) 7
      = Response.okPost (Post.mk 7 (User.mk 1 "alice") 0 false none))
    ∧ (postDetailHandler
        (DB.mk [User.mk 1 "alice", User.mk 2 "bob"] [] [Post.mk 7 (User.mk 1 "alice") 0 false none] [])
        (Viewer.auth (User.mk 2 "bob")) 7
      = Response.notFound) := by
  constructor
  · exact ((postDetail_visibility
      (DB.mk [User.mk 1 "alice", User.mk 2 "bob"] [] [Post.mk 7 (User.mk 1 "alice") 0 false none] [])
      (User.mk 1 "alice") 7 (Post.mk 7 (User.mk 1 "alice") 0 false none)
      (by decide) (by decide) (by decide)).1).mpr (Or.inr rfl)
  · exact ((postDetail_visibility
      (DB.mk [User.mk 1 "alice", User.mk 2 "bob"] [] [Post.mk 7 (User.mk 1 "alice") 0 false none] [])
      (User.mk 2 "bob") 7 (Post.mk 7 (User.mk 1 "alice") 0 false none)
      (by decide) (by decide) (by decide)).2.1)
      (by
        rintro (h | h)
        · exact absurd h (by decide)
        · exact absurd h (by decide))

/-- Modelled from the spec: the Post model's default ordering (its `Meta`
lives in `blog/models.py`, absent from `src/`): listings are served
"newest first", i.e. by descending publication date, matching the
`ordering = '-pub_date'` declared on `PostListView` (views.py:62). -/
def byPubDateDesc (a b : Post) : Bool :=
  decide (b.pub_date ≤ a.pub_date)

/-- The public-listing predicate: the filter of
`PostListView.get_queryset` (views.py:66-70): `is_published=True,
pub_date__lte=timezone.now(), category__is_published=True`.  The FK
traversal `category__is_published` is an inner join: a post with no
category, or with a dangling category id, matches no row. -/
def isPostListedPublicly (db : DB) (now : Int) (p : Post) : Bool :=
  p.is_published && decide (p.pub_date ≤ now) &&
    (match categoryOf db p with
     | some c => c.is_published
     | none => false)

/-- `PostListView.get_queryset` (views.py:65-70), ordered by the model's
default `-pub_date`: the list the `/` route paginates. -/
def PostListView_get_queryset (db : DB) (now : Int) : List Post :=
  (db.posts.filter (fun p => isPostListedPublicly db now p)).mergeSort byPubDateDesc

/-- `category_posts` (views.py:73-95): `get_object_or_404(Category,
is_published=True, slug=category_slug)` then
`category.posts.filter(pub_date__lte=current_time, is_published=True)`;
`none` is the 404 for a missing or unpublished category. -/
def category_posts (db : DB) (now : Int) (slug : String) : Option (List Post) :=
  (db.categories.find? (fun c => c.is_published && c.slug == slug)).map
    (fun cat =>
      (db.posts.filter (fun p =>
        p.category == some cat.id && decide (p.pub_date ≤ now) && p.is_published)).mergeSort
        byPubDateDesc)

/-- `info_profile` (views.py:45-56): `get_object_or_404(User,
username=name)` then `user.posts.all()` — the user's posts with no
publication or date filter; `none` is the 404 for an unknown username. -/
def info_profile (db : DB) (name : String) : Option (List Post) :=
  (db.users.find? (fun u => u.username == name)).map
    (fun u => (db.posts.filter (fun p => p.author == u)).mergeSort byPubDateDesc)

lemma isPostListedPublicly_iff (db : DB) (now : Int) (p : Post) :
    isPostListedPublicly db now p = true ↔
      (p.is_published = true ∧ p.pub_date ≤ now ∧
        ∃ c, categoryOf db p = some c ∧ c.is_published = true) := by
  unfold isPostListedPublicly
  cases hc : categoryOf db p with
  | none => simp [hc]
  | some c =>
    simp only [hc, Bool.and_eq_true, decide_eq_true_eq]
    constructor
    · rintro ⟨⟨h1, h2⟩, h3⟩
      exact ⟨h1, h2, c, rfl, h3⟩
    · rintro ⟨h1, h2, d, hd, h3⟩
      injection hd with hd
      exact ⟨⟨h1, h2⟩, hd ▸ h3⟩

/-- C2: a post appears in the index listing at `/` iff it is published,
its publication date is not in the future, and its category is published. -/
theorem index_listing_iff (db : DB) (now : Int) (p : Post) (hp : p ∈ db.posts) :
    p ∈ PostListView_get_queryset db now ↔
      (p.is_published = true ∧ p.pub_date ≤ now ∧
        ∃ c, categoryOf db p = some c ∧ c.is_published = true) := by
  unfold PostListView_get_queryset
  rw [List.mem_mergeSort, List.mem_filter]
  rw [← isPostListedPublicly_iff]
  exact ⟨fun h => h.2, fun h => ⟨hp, h⟩⟩

/-- Witness for `index_listing_iff`: a concrete published post with a
published category and past `pub_date` is in the index listing. -/
theorem index_listing_iff_witness :
    Post.mk 3 (User.mk 1 "alice") 2 true (some 9) ∈
      PostListView_get_queryset
        (DB.mk [User.mk 1 "alice"] [Category.mk 9 "cats" true]
          [Post.mk 3 (User.mk 1 "alice") 2 true (some 9)] []) 5 :=
  (index_listing_iff
      (DB.mk [User.mk 1 "alice"] [Category.mk 9 "cats" true]
        [Post.mk 3 (User.mk 1 "alice") 2 true (some 9)] []) 5
      (Post.mk 3 (User.mk 1 "alice") 2 true (some 9)) (by decide)).mpr
    (by refine ⟨rfl, by decide, Category.mk 9 "cats" true, by decide, rfl⟩)

/-- C8: the list the `/` route paginates is ordered newest first
(descending `pub_date`). -/
theorem index_listing_sorted (db : DB) (now : Int) :
    (PostListView_get_queryset db now).Pairwise
      (fun a b => b.pub_date ≤ a.pub_date) := by
  have h := List.sorted_mergeSort
      (fun (a b c : Post) (hab : byPubDateDesc a b) (hbc : byPubDateDesc b c) => by
        unfold byPubDateDesc at *
        simp only [decide_eq_true_eq] at *
        omega)
      (fun (a b : Post) => by
        unfold byPubDateDesc
        simp only [Bool.or_eq_true, decide_eq_true_eq]
        omega)
      (db.posts.filter (fun p => isPostListedPublicly db now p))
  exact h.imp (fun hab => by simpa [byPubDateDesc] using hab)

/-- `django.core.paginator.Paginator.num_pages` as configured by the
handlers (views.py:40,86: `Paginator(posts, settings.POSTS_PAGE)`, so
`orphans=0`, `allow_empty_first_page=True`):
`ceil(max(1, count) / per_page)`. -/
def Paginator_num_pages (count per_page : Nat) : Nat :=
  (max 1 count + per_page - 1) / per_page

/-- The `page` query parameter as `request.GET.get('page')` delivers it to
`Paginator.get_page`: missing, present but not parseable as an integer, or
an integer. -/
inductive PageParam where
  | absent
  | nonNumeric
  | num (n : Int)
deriving DecidableEq, Repr

/-- The page number `Paginator.get_page` serves (views.py:41,88):
`validate_number` raises `PageNotAnInteger` for a missing/non-numeric
parameter (caught: page 1) and `EmptyPage` for a number below 1 or beyond
the last page (caught: last page); the `number == 1 and
allow_empty_first_page` escape of `validate_number` is kept even though
`num_pages` is never 0 here. -/
def Paginator_get_page_number (count per_page : Nat) (param : PageParam) : Nat :=
  match param with
  | PageParam.absent => 1
  | PageParam.nonNumeric => 1
  | PageParam.num n =>
    let np := Paginator_num_pages count per_page
    if n < 1 then np
    else if (np : Int) < n then (if n = 1 then n.toNat else np)
    else n.toNat

/-- `Paginator.get_page`: the slice
`items[(number-1)*per_page : number*per_page]` of the served page. -/
def Paginator_get_page {α : Type} (items : List α) (per_page : Nat)
    (param : PageParam) : List α :=
  let number := Paginator_get_page_number items.length per_page param
  (items.drop ((number - 1) * per_page)).take per_page

/-- `get_paginated_posts` (views.py:39-42): paginate a post list with page
size `settings.POSTS_PAGE` (kept as the `per_page` argument, since the
settings module is not among the sources). -/
def get_paginated_posts (posts : List Post) (per_page : Nat)
    (param : PageParam) : List Post :=
  Paginator_get_page posts per_page param

lemma Paginator_num_pages_pos (count per_page : Nat) (hpp : 1 ≤ per_page) :
    1 ≤ Paginator_num_pages count per_page := by
  unfold Paginator_num_pages
  rw [Nat.le_div_iff_mul_le (by omega)]
  omega

/-- C5 as stated is false: a numeric page parameter below 1 is served the
LAST page, not page 1 (the nearest valid page): on the 3-page set
`[1,2,3,4,5]` with page size 2, page parameter 0 yields page 3 (`[5]`),
not page 1 (`[1,2]`). -/
theorem paginate_lt_one_counterexample :
    Paginator_get_page [1, 2, 3, 4, 5] 2 (PageParam.num 0) = [5]
    ∧ Paginator_get_page [1, 2, 3, 4, 5] 2 (PageParam.num 1) = [1, 2]
    ∧ Paginator_get_page_number 5 2 (PageParam.num 0) = 3
    ∧ (3 : Nat) ≠ 1 := by decide

/-- C5 amended: an absent or non-numeric page parameter defaults to page
1; a numeric parameter below 1 or beyond the last page clamps to the LAST
page (never an error); an in-range number is served as is; and on the
3-page set `[1,2,3,4,5]` with page size 2, page parameter 9999 returns
the last page. -/
theorem paginate_clamping (count per_page : Nat) (hpp : 1 ≤ per_page) (n : Int) :
    Paginator_get_page_number count per_page PageParam.absent = 1
    ∧ Paginator_get_page_number count per_page PageParam.nonNumeric = 1
    ∧ (n < 1 →
        Paginator_get_page_number count per_page (PageParam.num n)
          = Paginator_num_pages count per_page)
    ∧ ((Paginator_num_pages count per_page : Int) < n →
        Paginator_get_page_number count per_page (PageParam.num n)
          = Paginator_num_pages count per_page)
    ∧ (1 ≤ n → n ≤ (Paginator_num_pages count per_page : Int) →
        Paginator_get_page_number count per_page (PageParam.num n) = n.toNat)
    ∧ Paginator_get_page [1, 2, 3, 4, 5] 2 (PageParam.num 9999) = [5] := by
  have hnp := Paginator_num_pages_pos count per_page hpp
  refine ⟨rfl, rfl, ?_, ?_, ?_, by decide⟩
  · intro h
    simp only [Paginator_get_page_number]
    rw [if_pos h]
  · intro h
    have h1 : ¬ n < 1 := by omega
    have hne : ¬ n = 1 := by omega
    simp only [Paginator_get_page_number]
    rw [if_neg h1, if_pos h, if_neg hne]
  · intro h1 h2
    have hno : ¬ n < 1 := by omega
    have hno2 : ¬ ((Paginator_num_pages count per_page : Int) < n) := by omega
    simp only [Paginator_get_page_number]
    rw [if_neg hno, if_neg hno2]

/-- Witness for `paginate_clamping`: evaluated on a 5-item, page-size-2
(3-page) set at page parameter 0. -/
theorem paginate_clamping_witness :
    Paginator_get_page_number 5 2 (PageParam.num 0) = Paginator_num_pages 5 2 :=
  (paginate_clamping 5 2 (by decide) 0).2.2.1 (by decide)

/-- `DispatchMixin.dispatch` (views.py:117-123) composed with
`UpdateView` for `/posts/{pk}/edit/` (`LoginRequiredMixin` has already
ensured `u` is authenticated): missing post → 404 from `get_object`;
non-owner → redirect to the post's detail view; owner with a valid
`PostForm` → save and redirect to `get_success_url` (views.py:131-134,
the detail view); owner with an invalid form → re-render the form.
The submitted field changes are the abstract `update` function. -/
def PostUpdateView_handle (db : DB) (u : User) (pk : Nat) (valid : Bool)
    (update : Post → Post) : Response × DB :=
  match db.posts.find? (fun p => p.id == pk) with
  | none => (Response.notFound, db)
  | some p =>
    if p.author ≠ u then (Response.redirectDetail pk, db)
    else if valid then
      (Response.redirectDetail pk,
        { db with posts := db.posts.map (fun q => if q.id == pk then update q else q) })
    else (Response.renderTemplate "blog/create.html", db)

/-- `DispatchMixin.dispatch` composed with `DeleteView` for
`/posts/{pk}/delete/` (views.py:117-123,137-140): missing post → 404;
non-owner → redirect to detail; owner GET → confirmation page; owner
POST → delete the row and redirect to `blog:index`. -/
def PostDeleteView_handle (db : DB) (u : User) (pk : Nat)
    (isPost : Bool) : Response × DB :=
  match db.posts.find? (fun p => p.id == pk) with
  | none => (Response.notFound, db)
  | some p =>
    if p.author ≠ u then (Response.redirectDetail pk, db)
    else if isPost then
      (Response.redirectIndex, { db with posts := db.posts.filter (fun q => ¬ q.id == pk) })
    else (Response.renderTemplate "blog/create.html", db)

/-- `add_comment` (views.py:168-178): `get_object_or_404(Post, pk=pk)`
with NO visibility filter; a valid `CommentForm` saves a comment with
`author = request.user`, `post = post`; valid or not, the handler then
redirects to the post's detail view. -/
def add_comment (db : DB) (u : User) (pk : Nat) (valid : Bool)
    (cid : Nat) (text : String) : Response × DB :=
  match db.posts.find? (fun p => p.id == pk) with
  | none => (Response.notFound, db)
  | some _p =>
    if valid then
      (Response.redirectDetail pk,
        { db with comments := db.comments ++ [Comment.mk cid u pk text] })
    else (Response.redirectDetail pk, db)

/-- `edit_comment` (views.py:181-196): `get_object_or_404(Comment,
id=comment_id, post_id=post_id)`; non-author → redirect to detail; valid
form → save the edited text and redirect to detail; invalid form →
render `blog/comment.html` with the bound form. -/
def edit_comment (db : DB) (u : User) (post_id comment_id : Nat)
    (valid : Bool) (newText : String) : Response × DB :=
  match db.comments.find? (fun c => c.id == comment_id && c.post_id == post_id) with
  | none => (Response.notFound, db)
  | some c =>
    if c.author ≠ u then (Response.redirectDetail post_id, db)
    else if valid then
      (Response.redirectDetail post_id,
        { db with comments := db.comments.map (fun d =>
            if d.id == comment_id then { d with text := newText } else d) })
    else (Response.renderTemplate "blog/comment.html", db)

/-- `delete_comment` (views.py:199-209): `get_object_or_404(Comment,
id=comment_id, post_id=post_id)`; non-author → redirect to detail; GET →
confirmation page `blog/comment.html`; POST → delete the row and
redirect to detail. -/
def delete_comment (db : DB) (u : User) (post_id comment_id : Nat)
    (isPost : Bool) : Response × DB :=
  match db.comments.find? (fun c => c.id == comment_id && c.post_id == post_id) with
  | none => (Response.notFound, db)
  | some c =>
    if c.author ≠ u then (Response.redirectDetail post_id, db)
    else if isPost then
      (Response.redirectDetail post_id,
        { db with comments := db.comments.filter (fun d => ¬ d.id == comment_id) })
    else (Response.renderTemplate "blog/comment.html", db)

/-- C4: an authenticated non-owner hitting the edit or delete route for a
post is soft-denied: redirected to the post's detail view (no 403), with
the database — hence the post's stored fields and its existence —
unchanged. -/
theorem nonOwner_edit_delete_soft_deny (db : DB) (u : User) (pk : Nat) (p : Post)
    (hfind : db.posts.find? (fun q => q.id == pk) = some p)
    (hne : p.author ≠ u) (valid : Bool) (update : Post → Post) (isPost : Bool) :
    PostUpdateView_handle db u pk valid update = (Response.redirectDetail pk, db)
    ∧ PostDeleteView_handle db u pk isPost = (Response.redirectDetail pk, db) := by
  constructor
  · simp only [PostUpdateView_handle]
    rw [hfind]
    simp [hne]
  · simp only [PostDeleteView_handle]
    rw [hfind]
    simp [hne]

/-- Witness for `nonOwner_edit_delete_soft_deny`: bob hitting alice's
post's edit and delete routes. -/
theorem nonOwner_edit_delete_soft_deny_witness :
    PostUpdateView_handle
        (DB.mk [] [] [Post.mk 7 (User.mk 1 "alice") 0 true none] [])
        (User.mk 2 "bob") 7 true id
      = (Response.redirectDetail 7,
         DB.mk [] [] [Post.mk 7 (User.mk 1 "alice") 0 true none] [])
    ∧ PostDeleteView_handle
        (DB.mk [] [] [Post.mk 7 (User.mk 1 "alice") 0 true none] [])
        (User.mk 2 "bob") 7 true
      = (Response.redirectDetail 7,
         DB.mk [] [] [Post.mk 7 (User.mk 1 "alice") 0 true none] []) :=
  nonOwner_edit_delete_soft_deny
    (DB.mk [] [] [Post.mk 7 (User.mk 1 "alice") 0 true none] [])
    (User.mk 2 "bob") 7 (Post.mk 7 (User.mk 1 "alice") 0 true none)
    (by decide) (by decide) true id true

/-- C7: an authenticated non-author requesting the delete-comment route is
redirected to the post's detail view without any deletion: the comment is
still present and the post's comment count is unchanged. -/
theorem delete_comment_nonOwner (db : DB) (u : User) (post_id comment_id : Nat)
    (isPost : Bool) (c : Comment)
    (hfind : db.comments.find? (fun d => d.id == comment_id && d.post_id == post_id)
      = some c)
    (hne : c.author ≠ u) :
    delete_comment db u post_id comment_id isPost = (Response.redirectDetail post_id, db)
    ∧ c ∈ (delete_comment db u post_id comment_id isPost).2.comments
    ∧ ((delete_comment db u post_id comment_id isPost).2.comments.filter
          (fun d => d.post_id == post_id)).length
        = (db.comments.filter (fun d => d.post_id == post_id)).length := by
  have hres : delete_comment db u post_id comment_id isPost
      = (Response.redirectDetail post_id, db) := by
    simp only [delete_comment]
    rw [hfind]
    simp [hne]
  refine ⟨hres, ?_, ?_⟩
  · rw [hres]
    exact List.mem_of_find?_eq_some hfind
  · rw [hres]

/-- Witness for `delete_comment_nonOwner`: bob POSTing the delete route of
alice's comment. -/
theorem delete_comment_nonOwner_witness :
    delete_comment (DB.mk [] [] [] [Comment.mk 4 (User.mk 1 "alice") 7 "hi"])
        (User.mk 2 "bob") 7 4 true
      = (Response.redirectDetail 7,
         DB.mk [] [] [] [Comment.mk 4 (User.mk 1 "alice") 7 "hi"]) :=
  (delete_comment_nonOwner (DB.mk [] [] [] [Comment.mk 4 (User.mk 1 "alice") 7 "hi"])
    (User.mk 2 "bob") 7 4 true (Comment.mk 4 (User.mk 1 "alice") 7 "hi")
    (by decide) (by decide)).1

/-- `PostCreateView` (views.py:98-114): `LoginRequiredMixin` +
`CreateView` with `PostForm`; a valid form is saved with
`form.instance.author = self.request.user` and answered with a redirect
to the author's profile (`get_success_url`); an invalid form re-renders
`blog/create.html` with the bound form. -/
def PostCreateView_handle (db : DB) (u : User) (valid : Bool)
    (submitted : Post) : Response × DB :=
  if valid then
    (Response.redirectProfile u.username,
      { db with posts := db.posts ++ [{ submitted with author := u }] })
  else (Response.renderTemplate "blog/create.html", db)

/-- `edit_profile` (views.py:27-36): `get_object_or_404(User,
username=name)`; a different requester is redirected to the login page;
otherwise a valid `ProfileForm` is saved — and, valid or not, the handler
renders `blog/user.html` with the bound form. -/
def edit_profile (db : DB) (u : User) (name : String) (valid : Bool)
    (update : User → User) : Response × DB :=
  match db.users.find? (fun w => w.username == name) with
  | none => (Response.notFound, db)
  | some w =>
    if w.username ≠ u.username then (Response.redirectLogin, db)
    else if valid then
      (Response.renderTemplate "blog/user.html",
        { db with users := db.users.map (fun x => if x.username == name then update x else x) })
    else (Response.renderTemplate "blog/user.html", db)

/-- C9 as stated is false for the add-comment handler: on an invalid
submission `add_comment` does not redisplay the form — it redirects to
the post's detail view (a redirect away from the form). -/
theorem add_comment_invalid_redirects_counterexample :
    (add_comment (DB.mk [] [] [Post.mk 7 (User.mk 1 "alice") 0 true none] [])
        (User.mk 2 "bob") 7 false 1 "").1
      = Response.redirectDetail 7
    ∧ Response.redirectDetail 7 ≠ Response.renderTemplate "blog/comment.html"
    ∧ Response.redirectDetail 7 ≠ Response.renderTemplate "blog/create.html" := by
  refine ⟨rfl, by decide, by decide⟩

/-- C9 amended: when a submitted form fails field-level validation, every
form-validating write handler except add-comment redisplays the form with
errors — the post-create and post-edit views re-render `blog/create.html`,
`edit_comment` re-renders `blog/comment.html`, `edit_profile` re-renders
`blog/user.html`, each with the database unchanged and no exception and no
redirect away from the form; the add-comment handler is the one exception:
it redirects to the post's detail view whether or not the form was valid
(also without exception). -/
theorem invalid_form_behavior (db : DB) (u : User) (post_id comment_id pk cid : Nat)
    (c : Comment) (p : Post) (w : User) (submitted : Post) (t : String)
    (uupd : User → User) (pupd : Post → Post)
    (hc : db.comments.find? (fun d => d.id == comment_id && d.post_id == post_id)
      = some c)
    (hcauth : c.author = u)
    (hpfind : db.posts.find? (fun q => q.id == pk) = some p)
    (hpauth : p.author = u)
    (hw : db.users.find? (fun x => x.username == u.username) = some w)
    (hwname : w.username = u.username) :
    PostCreateView_handle db u false submitted
      = (Response.renderTemplate "blog/create.html", db)
    ∧ PostUpdateView_handle db u pk false pupd
      = (Response.renderTemplate "blog/create.html", db)
    ∧ edit_comment db u post_id comment_id false t
      = (Response.renderTemplate "blog/comment.html", db)
    ∧ edit_profile db u u.username false uupd
      = (Response.renderTemplate "blog/user.html", db)
    ∧ add_comment db u pk false cid t = (Response.redirectDetail pk, db) := by
  refine ⟨rfl, ?_, ?_, ?_, ?_⟩
  · simp only [PostUpdateView_handle]
    rw [hpfind]
    simp [hpauth]
  · simp only [edit_comment]
    rw [hc]
    simp [hcauth]
  · simp only [edit_profile]
    rw [hw]
    simp [hwname]
  · simp only [add_comment]
    rw [hpfind]
    simp

/-- Witness for `invalid_form_behavior`: alice's invalid edit of her own
comment and her invalid edit of her own profile. -/
theorem invalid_form_behavior_witness :
    (edit_comment
        (DB.mk [User.mk 1 "alice"] [] [Post.mk 7 (User.mk 1 "alice") 0 true none]
          [Comment.mk 4 (User.mk 1 "alice") 7 "hi"])
        (User.mk 1 "alice") 7 4 false "new"
      = (Response.renderTemplate "blog/comment.html",
         DB.mk [User.mk 1 "alice"] [] [Post.mk 7 (User.mk 1 "alice") 0 true none]
          [Comment.mk 4 (User.mk 1 "alice") 7 "hi"]))
    ∧ (edit_profile
        (DB.mk [User.mk 1 "alice"] [] [Post.mk 7 (User.mk 1 "alice") 0 true none]
          [Comment.mk 4 (User.mk 1 "alice") 7 "hi"])
        (User.mk 1 "alice") (User.mk 1 "alice").username false id
      = (Response.renderTemplate "blog/user.html",
         DB.mk [User.mk 1 "alice"] [] [Post.mk 7 (User.mk 1 "alice") 0 true none]
          [Comment.mk 4 (User.mk 1 "alice") 7 "hi"])) :=
  ⟨(invalid_form_behavior
      (DB.mk [User.mk 1 "alice"] [] [Post.mk 7 (User.mk 1 "alice") 0 true none]
        [Comment.mk 4 (User.mk 1 "alice") 7 "hi"])
      (User.mk 1 "alice") 7 4 7 9 (Comment.mk 4 (User.mk 1 "alice") 7 "hi")
      (Post.mk 7 (User.mk 1 "alice") 0 true none) (User.mk 1 "alice")
      (Post.mk 8 (User.mk 1 "alice") 0 true none) "new" id id
      (by decide) (by decide) (by decide) (by decide) (by decide) (by decide)).2.2.1,
   (invalid_form_behavior
      (DB.mk [User.mk 1 "alice"] [] [Post.mk 7 (User.mk 1 "alice") 0 true none]
        [Comment.mk 4 (User.mk 1 "alice") 7 "hi"])
      (User.mk 1 "alice") 7 4 7 9 (Comment.mk 4 (User.mk 1 "alice") 7 "hi")
      (Post.mk 7 (User.mk 1 "alice") 0 true none) (User.mk 1 "alice")
      (Post.mk 8 (User.mk 1 "alice") 0 true none) "new" id id
      (by decide) (by decide) (by decide) (by decide) (by decide) (by decide)).2.2.2.1⟩

/-- C10: a valid authenticated comment submission on any existing post
appends a comment authored by the submitter and redirects to the post's
detail view, with no visibility check; when the post is unpublished and
authored by someone else, that very detail view then answers not-found to
the submitter. -/
theorem add_comment_ignores_visibility (db : DB) (u : User) (pk cid : Nat)
    (p : Post) (text : String)
    (hfind : db.posts.find? (fun q => q.id == pk) = some p) :
    add_comment db u pk true cid text
      = (Response.redirectDetail pk,
         { db with comments := db.comments ++ [Comment.mk cid u pk text] })
    ∧ (p.is_published = false → p.author ≠ u →
        (∀ q ∈ db.posts, q.id = pk → q = p) →
        postDetailHandler (add_comment db u pk true cid text).2 (Viewer.auth u) pk
          = Response.notFound) := by
  have hres : add_comment db u pk true cid text
      = (Response.redirectDetail pk,
         { db with comments := db.comments ++ [Comment.mk cid u pk text] }) := by
    simp only [add_comment]
    rw [hfind]
    simp
  refine ⟨hres, fun hpub hne hu => ?_⟩
  rw [hres]
  have hmem : p ∈ db.posts := List.mem_of_find?_eq_some hfind
  have hid : p.id = pk := by
    have := List.find?_some hfind
    simpa using this
  have hstep := find_filter_of_unique db.posts
    (fun q => isPostVisible q u) pk p hmem hid hu
  have hnv : isPostVisible p u = false := by
    simp only [isPostVisible, hpub, Bool.false_or, beq_eq_false_iff_ne, ne_eq]
    exact hne
  rw [postDetailHandler_auth]
  rw [show ({ db with comments := db.comments ++ [Comment.mk cid u pk text] } : DB).posts
      = db.posts from rfl]
  rw [hstep, if_neg (by simp [hnv])]

/-- Witness for `add_comment_ignores_visibility`: bob comments on alice's
unpublished post 7; the comment is stored, and bob's follow-up detail
request 404s. -/
theorem add_comment_ignores_visibility_witness :
    add_comment (DB.mk [] [] [Post.mk 7 (User.mk 1 "alice") 0 false none] [])
        (User.mk 2 "bob") 7 true 4 "hey"
      = (Response.redirectDetail 7,
         DB.mk [] [] [Post.mk 7 (User.mk 1 "alice") 0 false none]
           [Comment.mk 4 (User.mk 2 "bob") 7 "hey"]) := by
  exact (add_comment_ignores_visibility
    (DB.mk [] [] [Post.mk 7 (User.mk 1 "alice") 0 false none] [])
    (User.mk 2 "bob") 7 4 (Post.mk 7 (User.mk 1 "alice") 0 false none) "hey"
    (by decide)).1

/-- C6 as stated is false: a publicly listed post is NOT "retrievable at
its detail URL by anyone" — an anonymous detail request raises an
uncaught `TypeError` (500) while building the author filter, so even a
published, past-dated post in a published category is returned to no
anonymous viewer. -/
theorem listed_not_retrievable_anonymous_counterexample :
    isPostListedPublicly
        (DB.mk [User.mk 1 "alice"] [Category.mk 9 "cats" true]
          [Post.mk 3 (User.mk 1 "alice") 2 true (some 9)] []) 5
        (Post.mk 3 (User.mk 1 "alice") 2 true (some 9)) = true
    ∧ postDetailHandler
        (DB.mk [User.mk 1 "alice"] [Category.mk 9 "cats" true]
          [Post.mk 3 (User.mk 1 "alice") 2 true (some 9)] [])
        Viewer.anonymous 3
      = Response.serverError
    ∧ Response.serverError
        ≠ Response.okPost (Post.mk 3 (User.mk 1 "alice") 2 true (some 9)) := by decide

/-- C6 amended: public-listing visibility implies detail visibility for
every AUTHENTICATED viewer (anonymous detail requests fail with a server
error regardless of the post), and the converse fails (an owner's
unpublished post is detail-visible to them but never listed). -/
theorem listed_implies_visible :
    (∀ (db : DB) (now : Int) (p : Post) (u : User),
        isPostListedPublicly db now p = true → isPostVisible p u = true)
    ∧ ¬ (∀ (db : DB) (now : Int) (p : Post) (u : User),
        isPostVisible p u = true → isPostListedPublicly db now p = true) := by
  constructor
  · intro db now p u h
    have hpub : p.is_published = true :=
      ((isPostListedPublicly_iff db now p).mp h).1
    simp [isPostVisible, hpub]
  · intro hall
    have := hall (DB.mk [] [] [] []) 0
      (Post.mk 1 (User.mk 1 "alice") 0 false none)
      (User.mk 1 "alice") (by decide)
    exact absurd this (by decide)

/-- Witness for `listed_implies_visible`: a concrete publicly listed post
is detail-visible even to an authenticated non-author. -/
theorem listed_implies_visible_witness :
    isPostVisible (Post.mk 3 (User.mk 1 "alice") 2 true (some 9))
      (User.mk 2 "bob") = true :=
  listed_implies_visible.1
    (DB.mk [User.mk 1 "alice"] [Category.mk 9 "cats" true]
      [Post.mk 3 (User.mk 1 "alice") 2 true (some 9)] []) 5
    (Post.mk 3 (User.mk 1 "alice") 2 true (some 9)) (User.mk 2 "bob") (by decide)

/-- C3 as stated is false: the profile listing route applies no
publication filter (`user.posts.all()`, views.py:49), so an unpublished
(and future-dated, for any `now ≤ 98`) post DOES appear in its author's
profile listing — served to every viewer, the route requires no
authentication. -/
theorem profile_listing_counterexample :
    info_profile
        (DB.mk [User.mk 1 "alice"] []
          [Post.mk 7 (User.mk 1 "alice") 99 false none] []) "alice"
      = some [Post.mk 7 (User.mk 1 "alice") 99 false none]
    ∧ (Post.mk 7 (User.mk 1 "alice") 99 false none).is_published = false := by
  constructor
  · simp only [info_profile]
    rw [show List.find? (fun u => u.username == "alice")
          (DB.mk [User.mk 1 "alice"] []
            [Post.mk 7 (User.mk 1 "alice") 99 false none] []).users
        = some (User.mk 1 "alice") from rfl]
    simp only [Option.map_some']
    rw [show List.filter (fun p => p.author == User.mk 1 "alice")
          (DB.mk [User.mk 1 "alice"] []
            [Post.mk 7 (User.mk 1 "alice") 99 false none] []).posts
        = [Post.mk 7 (User.mk 1 "alice") 99 false none] from rfl]
    rw [List.mergeSort_singleton]
  · rfl

/-- C3 amended: the index and category listing routes indeed never contain
a post that is unpublished or future-dated, for any viewer (the queries
are viewer-independent); the profile listing route, however, returns all
of the profile user's posts unfiltered, so unpublished and future posts do
appear there (see the counterexample). -/
theorem index_category_exclude_unpublished_future (db : DB) (now : Int) (p : Post)
    (h : p.is_published = false ∨ now < p.pub_date) :
    p ∉ PostListView_get_queryset db now
    ∧ ∀ slug l, category_posts db now slug = some l → p ∉ l := by
  constructor
  · intro hmem
    unfold PostListView_get_queryset at hmem
    rw [List.mem_mergeSort, List.mem_filter] at hmem
    have := (isPostListedPublicly_iff db now p).mp hmem.2
    rcases h with h | h
    · rw [this.1] at h
      simp at h
    · omega
  · intro slug l hl hmem
    unfold category_posts at hl
    rcases Option.map_eq_some'.mp hl with ⟨cat, _, hcat⟩
    rw [← hcat] at hmem
    rw [List.mem_mergeSort, List.mem_filter] at hmem
    have hp := hmem.2
    simp only [Bool.and_eq_true, decide_eq_true_eq] at hp
    rcases h with h | h
    · rw [hp.2] at h
      simp at h
    · omega

/-- Witness for `index_category_exclude_unpublished_future`: a concrete
unpublished post is absent from the index listing of its own database. -/
theorem index_category_exclude_witness :
    Post.mk 7 (User.mk 1 "alice") 99 false none ∉
      PostListView_get_queryset
        (DB.mk [User.mk 1 "alice"] []
          [Post.mk 7 (User.mk 1 "alice") 99 false none] []) 0 :=
  (index_category_exclude_unpublished_future
    (DB.mk [User.mk 1 "alice"] []
      [Post.mk 7 (User.mk 1 "alice") 99 false none] []) 0
    (Post.mk 7 (User.mk 1 "alice") 99 false none) (Or.inl rfl)).1
